import Mathlib

/-!
Verification of `robotlib/signals` (filters.py and generators.py).

Python floats are modelled as rationals (`ℚ`); `math.pi` is embedded as the
exact rational value of the IEEE-754 double that Python's `math.pi` denotes.
Exceptions (`ValueError`, i.e. the spec's InvalidParameter condition, and
`ZeroDivisionError`) are modelled with `Except Err`: a raising call returns
`.error e` and produces no new state, so the caller's state is unchanged.
Stateful methods take the instance state and return the new state (paired
with the return value for `filter`/`sample`).
-/

/-- The exact rational value of the IEEE-754 double `math.pi`
(3.141592653589793115997963468544185161590576171875). -/
def piFloat : ℚ := 884279719003555 / 281474976710656

/-- Error kinds raised by the Python code: `ValueError` (the spec's
InvalidParameter) and `ZeroDivisionError` (float division by zero). -/
inductive Err where
  | invalidParameter
  | zeroDivision
deriving DecidableEq, Repr

/-- State of `LowPassFilter` (fields `_cutoff_freq`, `_prev_output` of
`_SingleCutoffFreqFilter`). -/
structure LowPassFilter where
  cutoff_freq : ℚ
  prev_output : ℚ
deriving DecidableEq, Repr

/-- State of `HighPassFilter` (adds `_prev_value` to the single-cutoff state). -/
structure HighPassFilter where
  cutoff_freq : ℚ
  prev_output : ℚ
  prev_value : ℚ
deriving DecidableEq, Repr

/-- `_SingleCutoffFreqFilter._check_cutoff_freq`: raises `ValueError` when
`cutoff_freq < 0`. -/
def check_cutoff_freq (cutoff_freq : ℚ) : Except Err Unit :=
  if cutoff_freq < 0 then .error .invalidParameter else .ok ()

/-- `_SingleCutoffFreqFilter.set_cutoff_freq` on a `LowPassFilter`: check,
then assign. -/
def LowPassFilter.set_cutoff_freq (f : ℚ) (s : LowPassFilter) :
    Except Err LowPassFilter := do
  check_cutoff_freq f
  .ok ⟨f, s.prev_output⟩

/-- `LowPassFilter.__init__(cutoff_freq, init_value)`: validates the cutoff,
then seeds `_prev_output` with `init_value`. -/
def LowPassFilter.make (cutoff_freq init_value : ℚ) :
    Except Err LowPassFilter := do
  check_cutoff_freq cutoff_freq
  .ok ⟨cutoff_freq, init_value⟩

/-- `LowPassFilter._get_alpha`: `a = 2*pi*dt*cutoff_freq`, `alpha = a/(a+1)`. -/
def LowPassFilter._get_alpha (s : LowPassFilter) (dt : ℚ) : ℚ :=
  let a := 2 * piFloat * dt * s.cutoff_freq
  a / (a + 1)

/-- `_SingleCutoffFreqFilter.filter` specialised to `LowPassFilter`:
computes `alpha*value + (1-alpha)*prev_output`, stores it as the new
`_prev_output`, returns it. -/
def LowPassFilter.filter (s : LowPassFilter) (value dt : ℚ) :
    ℚ × LowPassFilter :=
  let alpha := s._get_alpha dt
  let output := alpha * value + (1 - alpha) * s.prev_output
  (output, ⟨s.cutoff_freq, output⟩)

/-- `_SingleCutoffFreqFilter.set_cutoff_freq` on a `HighPassFilter`. -/
def HighPassFilter.set_cutoff_freq (f : ℚ) (s : HighPassFilter) :
    Except Err HighPassFilter := do
  check_cutoff_freq f
  .ok ⟨f, s.prev_output, s.prev_value⟩

/-- `HighPassFilter.__init__(cutoff_freq, init_value)`: validates the cutoff,
seeds both `_prev_output` and `_prev_value` with `init_value`. -/
def HighPassFilter.make (cutoff_freq init_value : ℚ) :
    Except Err HighPassFilter := do
  check_cutoff_freq cutoff_freq
  .ok ⟨cutoff_freq, init_value, init_value⟩

/-- `HighPassFilter._get_alpha`: `alpha = 1/(2*pi*dt*cutoff_freq + 1)`. -/
def HighPassFilter._get_alpha (s : HighPassFilter) (dt : ℚ) : ℚ :=
  1 / (2 * piFloat * dt * s.cutoff_freq + 1)

/-- `_SingleCutoffFreqFilter.filter` specialised to `HighPassFilter`:
`d_value = value - prev_value`; `prev_value := value`;
output `alpha*(prev_output + d_value)` is stored as the new `_prev_output`
and returned. -/
def HighPassFilter.filter (s : HighPassFilter) (value dt : ℚ) :
    ℚ × HighPassFilter :=
  let d_value := value - s.prev_value
  let alpha := s._get_alpha dt
  let output := alpha * (s.prev_output + d_value)
  (output, ⟨s.cutoff_freq, output, value⟩)

/-- C1: `LowPassFilter.filter` returns `alpha*value + (1-alpha)*prev_output`
with `alpha = a/(a+1)`, `a = 2*pi*dt*cutoff_freq`, stores the returned value
as the new `prev_output` and keeps the cutoff; in particular
`LowPassFilter(cutoff_freq=0, init_value=5.0).filter(100.0, 0.01) = 5.0`. -/
theorem lowPass_filter_contract (c p value dt : ℚ) (hc : 0 ≤ c) :
    (LowPassFilter.filter ⟨c, p⟩ value dt).1 =
      (2 * piFloat * dt * c) / (2 * piFloat * dt * c + 1) * value +
        (1 - (2 * piFloat * dt * c) / (2 * piFloat * dt * c + 1)) * p ∧
    (LowPassFilter.filter ⟨c, p⟩ value dt).2 =
      ⟨c, (LowPassFilter.filter ⟨c, p⟩ value dt).1⟩ ∧
    (LowPassFilter.filter ⟨0, 5⟩ 100 (1 / 100)).1 = 5 := by
  refine ⟨rfl, rfl, ?_⟩
  norm_num [LowPassFilter.filter, LowPassFilter._get_alpha]

/-- Witness for C1 at `c = 0`. -/
theorem lowPass_filter_contract_witness :
    (LowPassFilter.filter ⟨0, 5⟩ 100 (1 / 100)).1 = 5 :=
  (lowPass_filter_contract 0 5 100 (1 / 100) (by norm_num)).2.2

/-- C2: `HighPassFilter.filter` returns `alpha*(prev_output + (value -
prev_value))` with `alpha = 1/(2*pi*dt*cutoff_freq + 1)`, updates
`prev_value` to `value` and stores the returned value as the new
`prev_output`. -/
theorem highPass_filter_contract (c p v value dt : ℚ) (hc : 0 ≤ c) :
    (HighPassFilter.filter ⟨c, p, v⟩ value dt).1 =
      1 / (2 * piFloat * dt * c + 1) * (p + (value - v)) ∧
    (HighPassFilter.filter ⟨c, p, v⟩ value dt).2 =
      ⟨c, (HighPassFilter.filter ⟨c, p, v⟩ value dt).1, value⟩ :=
  ⟨rfl, rfl⟩

/-- Witness for C2 at concrete inputs. -/
theorem highPass_filter_contract_witness :
    (HighPassFilter.filter ⟨1, 2, 3⟩ 7 (1 / 2)).1 =
      1 / (2 * piFloat * (1 / 2) * 1 + 1) * (2 + (7 - 3)) :=
  (highPass_filter_contract 1 2 3 7 (1 / 2) (by norm_num)).1

/-- `_LowHighCutoffFreqsFilter._check_cutoff_freqs`: raises `ValueError` when
`low_cutoff_freq > high_cutoff_freq`. -/
def check_cutoff_freqs (low_cutoff_freq high_cutoff_freq : ℚ) :
    Except Err Unit :=
  if low_cutoff_freq > high_cutoff_freq then .error .invalidParameter
  else .ok ()

/-- State of `BandPassFilter`: an owned `HighPassFilter` (tuned to the low
cutoff) and an owned `LowPassFilter` (tuned to the high cutoff). -/
structure BandPassFilter where
  _hpf : HighPassFilter
  _lpf : LowPassFilter
deriving DecidableEq, Repr

/-- `BandPassFilter.__init__`: check the ordering, then build
`HighPassFilter(low_cutoff_freq, init_value)` and
`LowPassFilter(high_cutoff_freq, init_value)`. -/
def BandPassFilter.make (low_cutoff_freq high_cutoff_freq init_value : ℚ) :
    Except Err BandPassFilter := do
  check_cutoff_freqs low_cutoff_freq high_cutoff_freq
  let hpf ← HighPassFilter.make low_cutoff_freq init_value
  let lpf ← LowPassFilter.make high_cutoff_freq init_value
  .ok ⟨hpf, lpf⟩

/-- `BandPassFilter.set_cutoff_freqs`: re-check the ordering, then retune both
sub-filters in place. -/
def BandPassFilter.set_cutoff_freqs
    (low_cutoff_freq high_cutoff_freq : ℚ) (s : BandPassFilter) :
    Except Err BandPassFilter := do
  check_cutoff_freqs low_cutoff_freq high_cutoff_freq
  let hpf ← HighPassFilter.set_cutoff_freq low_cutoff_freq s._hpf
  let lpf ← LowPassFilter.set_cutoff_freq high_cutoff_freq s._lpf
  .ok ⟨hpf, lpf⟩

/-- `BandPassFilter.filter`: cascade the value through `_hpf` then `_lpf`. -/
def BandPassFilter.filter (s : BandPassFilter) (value dt : ℚ) :
    ℚ × BandPassFilter :=
  let (v1, hpf) := s._hpf.filter value dt
  let (v2, lpf) := s._lpf.filter v1 dt
  (v2, ⟨hpf, lpf⟩)

/-- State of `BandStopFilter`: an owned `LowPassFilter` (tuned to the low
cutoff) and an owned `HighPassFilter` (tuned to the high cutoff). -/
structure BandStopFilter where
  _lpf : LowPassFilter
  _hpf : HighPassFilter
deriving DecidableEq, Repr

/-- `BandStopFilter.__init__`: check the ordering, then build
`LowPassFilter(low_cutoff_freq, init_value)` and
`HighPassFilter(high_cutoff_freq, init_value)`. -/
def BandStopFilter.make (low_cutoff_freq high_cutoff_freq init_value : ℚ) :
    Except Err BandStopFilter := do
  check_cutoff_freqs low_cutoff_freq high_cutoff_freq
  let lpf ← LowPassFilter.make low_cutoff_freq init_value
  let hpf ← HighPassFilter.make high_cutoff_freq init_value
  .ok ⟨lpf, hpf⟩

/-- `BandStopFilter.set_cutoff_freqs`: re-check the ordering, then retune both
sub-filters in place. -/
def BandStopFilter.set_cutoff_freqs
    (low_cutoff_freq high_cutoff_freq : ℚ) (s : BandStopFilter) :
    Except Err BandStopFilter := do
  check_cutoff_freqs low_cutoff_freq high_cutoff_freq
  let lpf ← LowPassFilter.set_cutoff_freq low_cutoff_freq s._lpf
  let hpf ← HighPassFilter.set_cutoff_freq high_cutoff_freq s._hpf
  .ok ⟨lpf, hpf⟩

/-- `BandStopFilter.filter`: feed the same raw value through `_lpf` and
`_hpf` independently and return the sum of the two outputs. -/
def BandStopFilter.filter (s : BandStopFilter) (value dt : ℚ) :
    ℚ × BandStopFilter :=
  let (v1, lpf) := s._lpf.filter value dt
  let (v2, hpf) := s._hpf.filter value dt
  (v1 + v2, ⟨lpf, hpf⟩)

/-- Output sequence of a `BandPassFilter` over a list of `(value, dt)` calls. -/
def BandPassFilter.run (s : BandPassFilter) : List (ℚ × ℚ) → List ℚ
  | [] => []
  | (v, dt) :: rest =>
    let (o, s') := s.filter v dt
    o :: s'.run rest

/-- Output sequence of a `BandStopFilter` over a list of `(value, dt)` calls. -/
def BandStopFilter.run (s : BandStopFilter) : List (ℚ × ℚ) → List ℚ
  | [] => []
  | (v, dt) :: rest =>
    let (o, s') := s.filter v dt
    o :: s'.run rest

/-- Spec-side reference for C3: per call, feed the value through a
`HighPassFilter` and then its output through a `LowPassFilter`, threading
both states. -/
def hpfThenLpfRun (hpf : HighPassFilter) (lpf : LowPassFilter) :
    List (ℚ × ℚ) → List ℚ
  | [] => []
  | (v, dt) :: rest =>
    let (o1, hpf') := hpf.filter v dt
    let (o2, lpf') := lpf.filter o1 dt
    o2 :: hpfThenLpfRun hpf' lpf' rest

/-- Spec-side reference for C4: per call, feed the same raw value through a
`LowPassFilter` and a `HighPassFilter` independently and sum the outputs,
threading both states. -/
def lpfPlusHpfRun (lpf : LowPassFilter) (hpf : HighPassFilter) :
    List (ℚ × ℚ) → List ℚ
  | [] => []
  | (v, dt) :: rest =>
    let (o1, lpf') := lpf.filter v dt
    let (o2, hpf') := hpf.filter v dt
    (o1 + o2) :: lpfPlusHpfRun lpf' hpf' rest

theorem bandPass_run_eq (s : BandPassFilter) (inputs : List (ℚ × ℚ)) :
    s.run inputs = hpfThenLpfRun s._hpf s._lpf inputs := by
  induction inputs generalizing s with
  | nil => rfl
  | cons vd rest ih =>
    obtain ⟨v, dt⟩ := vd
    simp only [BandPassFilter.run, BandPassFilter.filter, hpfThenLpfRun]
    exact congrArg _ (ih _)

theorem bandStop_run_eq (s : BandStopFilter) (inputs : List (ℚ × ℚ)) :
    s.run inputs = lpfPlusHpfRun s._lpf s._hpf inputs := by
  induction inputs generalizing s with
  | nil => rfl
  | cons vd rest ih =>
    obtain ⟨v, dt⟩ := vd
    simp only [BandStopFilter.run, BandStopFilter.filter, lpfPlusHpfRun]
    exact congrArg _ (ih _)

/-- C3: for `0 ≤ low ≤ high`, the fresh `BandPassFilter(low, high, init)` is
exactly the pair of a fresh `HighPassFilter(low, init)` and a fresh
`LowPassFilter(high, init)`, and its output sequence over any finite list of
`(value, dt)` calls equals the cascade HighPass-then-LowPass run of those
fresh sub-filters. -/
theorem bandPass_cascade_law (low high init_value : ℚ)
    (h0 : 0 ≤ low) (h : low ≤ high) (inputs : List (ℚ × ℚ)) :
    BandPassFilter.make low high init_value =
      .ok ⟨⟨low, init_value, init_value⟩, ⟨high, init_value⟩⟩ ∧
    BandPassFilter.run ⟨⟨low, init_value, init_value⟩, ⟨high, init_value⟩⟩
        inputs =
      hpfThenLpfRun ⟨low, init_value, init_value⟩ ⟨high, init_value⟩
        inputs := by
  constructor
  · simp [BandPassFilter.make, check_cutoff_freqs, HighPassFilter.make,
      LowPassFilter.make, check_cutoff_freq, not_lt.mpr h0,
      not_lt.mpr (h0.trans h), not_lt.mpr h]
    rfl
  · exact bandPass_run_eq _ _

/-- Witness for C3 at `low = 1`, `high = 2`, `init = 0`, one input. -/
theorem bandPass_cascade_law_witness :
    BandPassFilter.make 1 2 0 = .ok ⟨⟨1, 0, 0⟩, ⟨2, 0⟩⟩ ∧
    BandPassFilter.run ⟨⟨1, 0, 0⟩, ⟨2, 0⟩⟩ [(3, 1 / 10)] =
      hpfThenLpfRun ⟨1, 0, 0⟩ ⟨2, 0⟩ [(3, 1 / 10)] :=
  bandPass_cascade_law 1 2 0 (by norm_num) (by norm_num) [(3, 1 / 10)]

/-- C4: for `0 ≤ low ≤ high`, the fresh `BandStopFilter(low, high, init)` is
exactly the pair of a fresh `LowPassFilter(low, init)` and a fresh
`HighPassFilter(high, init)`, and its output sequence over any finite list of
`(value, dt)` calls equals, element-wise, the sum of the outputs of those
fresh sub-filters each fed the same raw values independently. -/
theorem bandStop_parallel_law (low high init_value : ℚ)
    (h0 : 0 ≤ low) (h : low ≤ high) (inputs : List (ℚ × ℚ)) :
    BandStopFilter.make low high init_value =
      .ok ⟨⟨low, init_value⟩, ⟨high, init_value, init_value⟩⟩ ∧
    BandStopFilter.run ⟨⟨low, init_value⟩, ⟨high, init_value, init_value⟩⟩
        inputs =
      lpfPlusHpfRun ⟨low, init_value⟩ ⟨high, init_value, init_value⟩
        inputs := by
  constructor
  · simp [BandStopFilter.make, check_cutoff_freqs, HighPassFilter.make,
      LowPassFilter.make, check_cutoff_freq, not_lt.mpr h0,
      not_lt.mpr (h0.trans h), not_lt.mpr h]
    rfl
  · exact bandStop_run_eq _ _

/-- Witness for C4 at `low = 1`, `high = 2`, `init = 0`, one input. -/
theorem bandStop_parallel_law_witness :
    BandStopFilter.make 1 2 0 = .ok ⟨⟨1, 0⟩, ⟨2, 0, 0⟩⟩ ∧
    BandStopFilter.run ⟨⟨1, 0⟩, ⟨2, 0, 0⟩⟩ [(3, 1 / 10)] =
      lpfPlusHpfRun ⟨1, 0⟩ ⟨2, 0, 0⟩ [(3, 1 / 10)] :=
  bandStop_parallel_law 1 2 0 (by norm_num) (by norm_num) [(3, 1 / 10)]

/-- The model value of `math.pi` is positive. -/
theorem piFloat_pos : 0 < piFloat := by norm_num [piFloat]

@[simp]
theorem error_bind {α β : Type} (e : Err) (f : α → Except Err β) :
    (Except.error e : Except Err α) >>= f = Except.error e := rfl

@[simp]
theorem ok_bind {α β : Type} (a : α) (f : α → Except Err β) :
    (Except.ok a : Except Err α) >>= f = f a := rfl

/-- C5: a negative cutoff makes `set_cutoff_freq` raise InvalidParameter on
`LowPassFilter` and `HighPassFilter`, and `low > high` makes
`set_cutoff_freqs` raise InvalidParameter on `BandPassFilter` and
`BandStopFilter`; in every case the call produces no new state, so every
field of the instance is left exactly as it was. The same checks reject the
corresponding constructor arguments before any state exists. -/
theorem invalid_params_rejected_before_mutation
    (f low high init_value : ℚ) (slp : LowPassFilter) (shp : HighPassFilter)
    (sbp : BandPassFilter) (sbs : BandStopFilter) :
    (f < 0 →
      LowPassFilter.set_cutoff_freq f slp = .error .invalidParameter ∧
      HighPassFilter.set_cutoff_freq f shp = .error .invalidParameter ∧
      LowPassFilter.make f init_value = .error .invalidParameter ∧
      HighPassFilter.make f init_value = .error .invalidParameter) ∧
    (low > high →
      BandPassFilter.set_cutoff_freqs low high sbp =
        .error .invalidParameter ∧
      BandStopFilter.set_cutoff_freqs low high sbs =
        .error .invalidParameter ∧
      BandPassFilter.make low high init_value = .error .invalidParameter ∧
      BandStopFilter.make low high init_value = .error .invalidParameter) := by
  constructor
  · intro hf
    refine ⟨?_, ?_, ?_, ?_⟩ <;>
      simp [LowPassFilter.set_cutoff_freq, HighPassFilter.set_cutoff_freq,
        LowPassFilter.make, HighPassFilter.make, check_cutoff_freq, hf]
  · intro hlh
    refine ⟨?_, ?_, ?_, ?_⟩ <;>
      simp [BandPassFilter.set_cutoff_freqs, BandStopFilter.set_cutoff_freqs,
        BandPassFilter.make, BandStopFilter.make, check_cutoff_freqs, hlh]

/-- Witness for C5 at `f = -1`, `low = 2 > high = 1` on concrete states. -/
theorem invalid_params_rejected_before_mutation_witness :
    LowPassFilter.set_cutoff_freq (-1) ⟨3, 4⟩ = .error .invalidParameter ∧
    BandPassFilter.set_cutoff_freqs 2 1 ⟨⟨1, 0, 0⟩, ⟨2, 0⟩⟩ =
      .error .invalidParameter := by
  have h := invalid_params_rejected_before_mutation (-1) 2 1 0 ⟨3, 4⟩
    ⟨3, 4, 5⟩ ⟨⟨1, 0, 0⟩, ⟨2, 0⟩⟩ ⟨⟨1, 0⟩, ⟨2, 0, 0⟩⟩
  exact ⟨(h.1 (by norm_num)).1, (h.2 (by norm_num)).1⟩

/-- C6: for `cutoff_freq ≥ 0` and `dt > 0`, the LowPassFilter coefficient
`alpha = a/(a+1)` lies in `[0, 1)` and the HighPassFilter coefficient
`alpha = 1/(2*pi*dt*cutoff_freq + 1)` lies in `(0, 1]`. -/
theorem alpha_bounds (c dt p v : ℚ) (hc : 0 ≤ c) (hdt : 0 < dt) :
    (0 ≤ LowPassFilter._get_alpha ⟨c, p⟩ dt ∧
      LowPassFilter._get_alpha ⟨c, p⟩ dt < 1) ∧
    (0 < HighPassFilter._get_alpha ⟨c, p, v⟩ dt ∧
      HighPassFilter._get_alpha ⟨c, p, v⟩ dt ≤ 1) := by
  have ha : 0 ≤ 2 * piFloat * dt * c :=
    mul_nonneg (mul_nonneg (mul_nonneg (by norm_num) piFloat_pos.le) hdt.le) hc
  have ha1 : (0 : ℚ) < 2 * piFloat * dt * c + 1 := by linarith
  simp only [LowPassFilter._get_alpha, HighPassFilter._get_alpha]
  refine ⟨⟨div_nonneg ha ha1.le, (div_lt_one ha1).mpr (by linarith)⟩,
    div_pos one_pos ha1, ?_⟩
  rw [div_le_one ha1]
  linarith

/-- Witness for C6 at `c = 0`, `dt = 1`. -/
theorem alpha_bounds_witness :
    (0 ≤ LowPassFilter._get_alpha ⟨0, 0⟩ 1 ∧
      LowPassFilter._get_alpha ⟨0, 0⟩ 1 < 1) ∧
    (0 < HighPassFilter._get_alpha ⟨0, 0, 0⟩ 1 ∧
      HighPassFilter._get_alpha ⟨0, 0, 0⟩ 1 ≤ 1) :=
  alpha_bounds 0 1 0 0 (by norm_num) (by norm_num)

/-- C10: a successful `set_cutoff_freq` changes only the stored cutoff
frequency: `prev_output` (and for `HighPassFilter` also `prev_value`)
keep their prior values. -/
theorem set_cutoff_freq_frame (f : ℚ) (slp : LowPassFilter)
    (shp : HighPassFilter) (hf : 0 ≤ f) :
    LowPassFilter.set_cutoff_freq f slp = .ok ⟨f, slp.prev_output⟩ ∧
    HighPassFilter.set_cutoff_freq f shp =
      .ok ⟨f, shp.prev_output, shp.prev_value⟩ := by
  constructor <;>
    simp [LowPassFilter.set_cutoff_freq, HighPassFilter.set_cutoff_freq,
      check_cutoff_freq, not_lt.mpr hf]

/-- Witness for C10 at `f = 7` on concrete states. -/
theorem set_cutoff_freq_frame_witness :
    LowPassFilter.set_cutoff_freq 7 ⟨3, 4⟩ = .ok ⟨7, 4⟩ ∧
    HighPassFilter.set_cutoff_freq 7 ⟨3, 4, 5⟩ = .ok ⟨7, 4, 5⟩ :=
  set_cutoff_freq_frame 7 ⟨3, 4⟩ ⟨3, 4, 5⟩ (by norm_num)

/-- State of `PeriodicSignalGenerator`: current frequency and accumulated
time. -/
structure PeriodicSignalGenerator where
  _freq : ℚ
  _t : ℚ
deriving DecidableEq, Repr

/-- `PeriodicSignalGenerator._validate_freq`: raises `ValueError` when
`freq < 0` (zero is accepted). -/
def _validate_freq (freq : ℚ) : Except Err Unit :=
  if freq < 0 then .error .invalidParameter else .ok ()

/-- `PeriodicSignalGenerator.set_freq`: validate, then assign. -/
def PeriodicSignalGenerator.set_freq (freq : ℚ)
    (s : PeriodicSignalGenerator) : Except Err PeriodicSignalGenerator := do
  _validate_freq freq
  .ok ⟨freq, s._t⟩

/-- `PeriodicSignalGenerator.get_period`: `1.0 / get_freq()`. Python raises
`ZeroDivisionError` when the stored frequency is 0. -/
def PeriodicSignalGenerator.get_period (s : PeriodicSignalGenerator) :
    Except Err ℚ :=
  if s._freq = 0 then .error .zeroDivision else .ok (1 / s._freq)

/-- `PeriodicSignalGenerator.set_period`: computes `freq = 1.0 / period`
(Python raises `ZeroDivisionError` when `period = 0`) and calls `set_freq`. -/
def PeriodicSignalGenerator.set_period (period : ℚ)
    (s : PeriodicSignalGenerator) : Except Err PeriodicSignalGenerator :=
  if period = 0 then .error .zeroDivision
  else PeriodicSignalGenerator.set_freq (1 / period) s

/-- `PeriodicSignalGenerator.__init__(freq, period)`: rejects neither/both
given, otherwise sets the frequency via `set_freq` or `set_period`, then
`_t = 0.0`. -/
def PeriodicSignalGenerator.make (freq period : Option ℚ) :
    Except Err PeriodicSignalGenerator :=
  match freq, period with
  | none, none => .error .invalidParameter
  | some _, some _ => .error .invalidParameter
  | some f, none => do
    _validate_freq f
    .ok ⟨f, 0⟩
  | none, some p =>
    if p = 0 then .error .zeroDivision
    else do
      _validate_freq (1 / p)
      .ok ⟨1 / p, 0⟩

/-- C7 counterexample: constructing with `freq = 0` (a non-positive freq)
succeeds with stored frequency 0 instead of raising InvalidParameter. -/
theorem periodic_make_freq_zero_accepted :
    PeriodicSignalGenerator.make (some 0) none = .ok ⟨0, 0⟩ := rfl

/-- C7 (amended): supplying both or neither of freq/period raises
InvalidParameter; a supplied or set freq must only be non-negative
(negative raises InvalidParameter, zero is accepted); `set_period p` raises
ZeroDivisionError at `p = 0` and otherwise stores `freq = 1/p`; for `p > 0`
the two views stay consistent (`get_period` returns `p` after
`set_period p`, and `1/f` after `set_freq f` with `f > 0`). -/
theorem periodic_freq_period_contract (f p : ℚ)
    (s : PeriodicSignalGenerator) (hp : 0 < p) :
    PeriodicSignalGenerator.make none none = .error .invalidParameter ∧
    PeriodicSignalGenerator.make (some f) (some p) =
      .error .invalidParameter ∧
    (f < 0 →
      PeriodicSignalGenerator.make (some f) none = .error .invalidParameter ∧
      PeriodicSignalGenerator.set_freq f s = .error .invalidParameter) ∧
    (0 ≤ f →
      PeriodicSignalGenerator.make (some f) none = .ok ⟨f, 0⟩ ∧
      PeriodicSignalGenerator.set_freq f s = .ok ⟨f, s._t⟩) ∧
    PeriodicSignalGenerator.set_period 0 s = .error .zeroDivision ∧
    PeriodicSignalGenerator.set_period p s = .ok ⟨1 / p, s._t⟩ ∧
    PeriodicSignalGenerator.get_period ⟨1 / p, s._t⟩ = .ok p ∧
    (0 < f → PeriodicSignalGenerator.get_period ⟨f, s._t⟩ = .ok (1 / f)) := by
  have hp0 : (1 : ℚ) / p ≠ 0 := by positivity
  refine ⟨rfl, rfl, ?_, ?_, ?_, ?_, ?_, ?_⟩
  · intro hf
    constructor <;>
      simp [PeriodicSignalGenerator.make, PeriodicSignalGenerator.set_freq,
        _validate_freq, hf]
  · intro hf
    constructor <;>
      simp [PeriodicSignalGenerator.make, PeriodicSignalGenerator.set_freq,
        _validate_freq, not_lt.mpr hf]
  · simp [PeriodicSignalGenerator.set_period]
  · simp [PeriodicSignalGenerator.set_period, PeriodicSignalGenerator.set_freq,
      _validate_freq, hp.ne', not_lt.mpr hp.le]
  · simp [PeriodicSignalGenerator.get_period, hp0, hp.ne', one_div_one_div]
  · intro hf
    simp [PeriodicSignalGenerator.get_period, hf.ne']

/-- Witness for C7 (amended) at `f = 2`, `p = 4`, a concrete state. -/
theorem periodic_freq_period_contract_witness :
    PeriodicSignalGenerator.make none none = .error .invalidParameter ∧
    PeriodicSignalGenerator.set_period 4 ⟨1, 3⟩ = .ok ⟨1 / 4, 3⟩ := by
  have h := periodic_freq_period_contract 2 4 ⟨1, 3⟩ (by norm_num)
  exact ⟨h.1, h.2.2.2.2.2.1⟩

/-- The randomness source selected by `RandomSignalGenerator._set_rng`:
`random.Random()` for `'pseudo'`, `random.SystemRandom()` for `'true'`.
The streams themselves are external entropy and are not modelled. -/
inductive Rng where
  | pseudoRandom
  | systemRandom
deriving DecidableEq, Repr

/-- `RandomSignalGenerator._set_rng`: accepts exactly the strings
`"pseudo"` and `"true"`; anything else raises `ValueError`. -/
def RandomSignalGenerator._set_rng (randomness : String) : Except Err Rng :=
  if randomness = "pseudo" then .ok .pseudoRandom
  else if randomness = "true" then .ok .systemRandom
  else .error .invalidParameter

/-- State of `UniformRandomSignalGenerator`: the selected randomness source
and the stored bounds. The optional seed only reseeds the RNG stream, which
is not modelled. -/
structure UniformRandomSignalGenerator where
  _rng : Rng
  low : ℚ
  high : ℚ
deriving DecidableEq, Repr

/-- `UniformRandomSignalGenerator.__init__(low, high, seed, randomness)`:
selects the RNG via `_set_rng`, then stores `low` and `high` as given —
there is no validation of `low`/`high`. -/
def UniformRandomSignalGenerator.make (low high : ℚ) (seed : Option ℤ)
    (randomness : String) : Except Err UniformRandomSignalGenerator := do
  let rng ← RandomSignalGenerator._set_rng randomness
  .ok ⟨rng, low, high⟩

/-- C8 counterexample: constructing with `low = 1 ≥ high = 0` succeeds and
stores the bounds as given instead of raising InvalidParameter. -/
theorem uniform_make_low_ge_high_accepted :
    UniformRandomSignalGenerator.make 1 0 none "pseudo" =
      .ok ⟨.pseudoRandom, 1, 0⟩ := rfl

/-- C8 (amended): `UniformRandomSignalGenerator` does not validate
`low`/`high` — construction with `low ≥ high` succeeds and stores the bounds
as given; the only constructor validation is the randomness selector, which
raises InvalidParameter on any string other than `"pseudo"` and `"true"`. -/
theorem uniform_make_contract (low high : ℚ) (seed : Option ℤ)
    (r : String) (hlh : low ≥ high) :
    UniformRandomSignalGenerator.make low high seed "pseudo" =
      .ok ⟨.pseudoRandom, low, high⟩ ∧
    UniformRandomSignalGenerator.make low high seed "true" =
      .ok ⟨.systemRandom, low, high⟩ ∧
    (r ≠ "pseudo" → r ≠ "true" →
      UniformRandomSignalGenerator.make low high seed r =
        .error .invalidParameter) := by
  refine ⟨rfl, rfl, fun h1 h2 => ?_⟩
  simp [UniformRandomSignalGenerator.make, RandomSignalGenerator._set_rng,
    h1, h2]

/-- Witness for C8 (amended) at `low = 1 ≥ high = 0`, selector `"other"`. -/
theorem uniform_make_contract_witness :
    UniformRandomSignalGenerator.make 1 0 none "pseudo" =
      .ok ⟨.pseudoRandom, 1, 0⟩ ∧
    UniformRandomSignalGenerator.make 1 0 none "other" =
      .error .invalidParameter := by
  have h := uniform_make_contract 1 0 none "other" (by norm_num)
  exact ⟨h.1, h.2.2 (by decide) (by decide)⟩

/-- Python's float `%` operator: `a % b = a - b * floor(a / b)` (the result
takes the sign of the divisor; for `b > 0` it lies in `[0, b)`). -/
def pymod (a b : ℚ) : ℚ := a - b * ⌊a / b⌋

theorem pymod_nonneg (a b : ℚ) (hb : 0 < b) : 0 ≤ pymod a b := by
  have h := Int.fract_nonneg (a / b)
  have hfract : pymod a b = b * Int.fract (a / b) := by
    rw [Int.fract, pymod, mul_sub, mul_div_cancel₀ a hb.ne']
  rw [hfract]
  positivity

theorem pymod_lt (a b : ℚ) (hb : 0 < b) : pymod a b < b := by
  have h := Int.fract_lt_one (a / b)
  have hfract : pymod a b = b * Int.fract (a / b) := by
    rw [Int.fract, pymod, mul_sub, mul_div_cancel₀ a hb.ne']
  rw [hfract]
  calc b * Int.fract (a / b) < b * 1 := by
        exact mul_lt_mul_of_pos_left h hb
    _ = b := mul_one b

/-- State of `PeriodicSignalGeneratorWithDutyCycle` (and so of
`TriangleWaveGenerator`): frequency, accumulated time and duty cycle. -/
structure PeriodicSignalGeneratorWithDutyCycle where
  _freq : ℚ
  _t : ℚ
  _duty_cycle : ℚ
deriving DecidableEq, Repr

/-- `get_period` on the duty-cycle generator state: `1.0 / freq`. Modelled
totally here (`1/0 = 0` in `ℚ`); every theorem about it assumes
`0 < _freq`, the regime in which Python does not raise `ZeroDivisionError`. -/
def PeriodicSignalGeneratorWithDutyCycle.period
    (s : PeriodicSignalGeneratorWithDutyCycle) : ℚ := 1 / s._freq

/-- `PeriodicSignalGeneratorWithDutyCycle._get_period_fraction`:
`(t % period) / period`. -/
def PeriodicSignalGeneratorWithDutyCycle._get_period_fraction
    (s : PeriodicSignalGeneratorWithDutyCycle) : ℚ :=
  pymod s._t s.period / s.period

/-- `PeriodicSignalGeneratorWithDutyCycle._is_in_duty_cycle`:
`period_fraction < duty_cycle`. -/
def PeriodicSignalGeneratorWithDutyCycle._is_in_duty_cycle
    (s : PeriodicSignalGeneratorWithDutyCycle) : Bool :=
  s._get_period_fraction < s._duty_cycle

/-- `TriangleWaveGenerator._get_upswing`: `period_fraction / duty_cycle`. -/
def TriangleWaveGenerator._get_upswing
    (s : PeriodicSignalGeneratorWithDutyCycle) : ℚ :=
  s._get_period_fraction / s._duty_cycle

/-- `TriangleWaveGenerator._get_downswing`:
`(1 - period_fraction) / (1 - duty_cycle)`. -/
def TriangleWaveGenerator._get_downswing
    (s : PeriodicSignalGeneratorWithDutyCycle) : ℚ :=
  (1 - s._get_period_fraction) / (1 - s._duty_cycle)

/-- `TriangleWaveGenerator._get_sample`: upswing while in the duty cycle,
downswing otherwise. -/
def TriangleWaveGenerator._get_sample
    (s : PeriodicSignalGeneratorWithDutyCycle) : ℚ :=
  if s._is_in_duty_cycle then TriangleWaveGenerator._get_upswing s
  else TriangleWaveGenerator._get_downswing s

/-- `PeriodicSignalGenerator.sample` specialised to `TriangleWaveGenerator`:
`_t += dt`, then `_get_sample()`. -/
def TriangleWaveGenerator.sample (s : PeriodicSignalGeneratorWithDutyCycle)
    (dt : ℚ) : ℚ × PeriodicSignalGeneratorWithDutyCycle :=
  let s' : PeriodicSignalGeneratorWithDutyCycle :=
    ⟨s._freq, s._t + dt, s._duty_cycle⟩
  (TriangleWaveGenerator._get_sample s', s')

theorem period_fraction_bounds (s : PeriodicSignalGeneratorWithDutyCycle)
    (h : 0 < s._freq) :
    0 ≤ s._get_period_fraction ∧ s._get_period_fraction < 1 := by
  have hper : 0 < s.period := by
    rw [PeriodicSignalGeneratorWithDutyCycle.period]
    positivity
  unfold PeriodicSignalGeneratorWithDutyCycle._get_period_fraction
  exact ⟨div_nonneg (pymod_nonneg _ _ hper) hper.le,
    (div_lt_one hper).mpr (pymod_lt _ _ hper)⟩

/-- C9: for a `TriangleWaveGenerator` with positive frequency, when
`duty_cycle = 0` the call `sample(dt)` never takes the upswing branch
(`_is_in_duty_cycle` is `false`, so the division by `duty_cycle` is never
evaluated and the taken branch divides by `1 - duty_cycle = 1 ≠ 0`), and
when `duty_cycle = 1` it never takes the downswing branch
(`_is_in_duty_cycle` is `true`, so the division by `1 - duty_cycle` is never
evaluated and the taken branch divides by `duty_cycle = 1 ≠ 0`). -/
theorem triangle_degenerate_duty_cycles (freq t dt : ℚ) (hf : 0 < freq) :
    (PeriodicSignalGeneratorWithDutyCycle._is_in_duty_cycle
        ⟨freq, t + dt, 0⟩ = false ∧
      (TriangleWaveGenerator.sample ⟨freq, t, 0⟩ dt).1 =
        TriangleWaveGenerator._get_downswing ⟨freq, t + dt, 0⟩ ∧
      1 - (⟨freq, t + dt, 0⟩ :
        PeriodicSignalGeneratorWithDutyCycle)._duty_cycle ≠ 0) ∧
    (PeriodicSignalGeneratorWithDutyCycle._is_in_duty_cycle
        ⟨freq, t + dt, 1⟩ = true ∧
      (TriangleWaveGenerator.sample ⟨freq, t, 1⟩ dt).1 =
        TriangleWaveGenerator._get_upswing ⟨freq, t + dt, 1⟩ ∧
      (⟨freq, t + dt, 1⟩ :
        PeriodicSignalGeneratorWithDutyCycle)._duty_cycle ≠ 0) := by
  have h0 := period_fraction_bounds ⟨freq, t + dt, 0⟩ hf
  have h1 := period_fraction_bounds ⟨freq, t + dt, 1⟩ hf
  have hin0 : PeriodicSignalGeneratorWithDutyCycle._is_in_duty_cycle
      ⟨freq, t + dt, 0⟩ = false := by
    simp only [PeriodicSignalGeneratorWithDutyCycle._is_in_duty_cycle,
      decide_eq_false_iff_not, not_lt]
    exact h0.1
  have hin1 : PeriodicSignalGeneratorWithDutyCycle._is_in_duty_cycle
      ⟨freq, t + dt, 1⟩ = true := by
    simp only [PeriodicSignalGeneratorWithDutyCycle._is_in_duty_cycle,
      decide_eq_true_eq]
    exact h1.2
  refine ⟨⟨hin0, ?_, by norm_num⟩, hin1, ?_, by norm_num⟩
  · simp [TriangleWaveGenerator.sample, TriangleWaveGenerator._get_sample,
      hin0]
  · simp [TriangleWaveGenerator.sample, TriangleWaveGenerator._get_sample,
      hin1]

/-- Witness for C9 at `freq = 1`, `t = 0`, `dt = 1/4`. -/
theorem triangle_degenerate_duty_cycles_witness :
    PeriodicSignalGeneratorWithDutyCycle._is_in_duty_cycle
        ⟨1, 0 + 1 / 4, 0⟩ = false ∧
    PeriodicSignalGeneratorWithDutyCycle._is_in_duty_cycle
        ⟨1, 0 + 1 / 4, 1⟩ = true :=
  ⟨(triangle_degenerate_duty_cycles 1 0 (1 / 4) (by norm_num)).1.1,
    (triangle_degenerate_duty_cycles 1 0 (1 / 4) (by norm_num)).2.1⟩
